import Mathlib

/-!
Shallow embedding of the EnergyGrid data-aggregator client
(src/unnamed/part_000 — the driver `main`; src/client/src/api/rateLimiter.js;
src/client/src/api/signature.js — which also holds the api client module with
`queryDevices` / `queryDevicesWithRetry`; src/client/src/business/deviceManager.js),
together with theorems settling the frozen claims about it.

JS numbers that the program only ever uses as exact decimals are modelled as
`Rat`, with a dedicated `JSNum` type carrying the `NaN`/`Infinity` cases that
JS division can produce. Machine time is modelled as `Int` milliseconds.
-/

namespace Arkahub

/-! ## deviceManager.js -/

/-- `BATCH_SIZE` from deviceManager.js. -/
def BATCH_SIZE : Nat := 10

/-- `String.prototype.padStart(len, c)`: prepend copies of `c` until the
length is at least `len`. -/
def padStart (s : String) (len : Nat) (c : Char) : String :=
  String.mk (List.replicate (len - s.length) c) ++ s

/-- `generateSerialNumbers(count)`: serial strings `SN-` + zero-padded index,
for indices `0 .. count-1`. -/
def generateSerialNumbers (count : Nat := 500) : List String :=
  (List.range count).map (fun i => "SN-" ++ padStart (toString i) 3 '0')

/-- Consecutive slices of `n` elements: take the next `n`, recurse on the
rest.  Structural recursion on a fuel counter; all callers pass fuel at least
the list length, which for `0 < n` makes the fuel irrelevant. -/
def chunksOf (n : Nat) : Nat → List α → List (List α)
  | 0, _ => []
  | fuel + 1, l => if l.isEmpty then [] else l.take n :: chunksOf n fuel (l.drop n)

/-- `createBatches(array, batchSize = BATCH_SIZE)` from deviceManager.js:
the loop `for (i = 0; i < len; i += batchSize) push(slice(i, i + batchSize))`.
A step consumes at least one element when `0 < batchSize`, so `array.length`
slices always suffice (the JS loop would not terminate at `batchSize = 0`). -/
def createBatches (array : List α) (batchSize : Nat := BATCH_SIZE) : List (List α) :=
  chunksOf batchSize array.length array

/-- JS number results of a division: a finite value, `NaN`, or a signed
infinity. -/
inductive JSNum where
  | nan : JSNum
  | inf (pos : Bool) : JSNum
  | num (q : Rat) : JSNum
deriving DecidableEq

/-- JS division `a / b` on finite operands: `0 / 0 = NaN`, `a / 0 = ±Infinity`
for `a ≠ 0`, otherwise exact. -/
def jsDiv (a b : Rat) : JSNum :=
  if b = 0 then (if a = 0 then .nan else .inf (decide (0 < a))) else .num (a / b)

/-- JS multiplication of a division result by a finite constant. -/
def jsMul (x : JSNum) (c : Rat) : JSNum :=
  match x with
  | .nan => .nan
  | .inf p => if c = 0 then .nan else .inf (p == decide (0 < c))
  | .num q => .num (q * c)

/-- Round half away from zero, as `Number.prototype.toFixed` does on exact
decimal values. -/
def roundHalfAway (q : Rat) : Int :=
  if q < 0 then -((-q + 1/2).floor) else (q + 1/2).floor

/-- Two-digit zero padding for the fractional part. -/
def pad2 (m : Nat) : String :=
  if m < 10 then "0" ++ toString m else toString m

/-- `q.toFixed(2)` for a finite JS number that is an exact decimal. -/
def toFixed2 (q : Rat) : String :=
  let n := roundHalfAway (q * 100)
  if n < 0 then
    "-" ++ toString (n.natAbs / 100) ++ "." ++ pad2 (n.natAbs % 100)
  else
    toString (n.toNat / 100) ++ "." ++ pad2 (n.toNat % 100)

/-- `x.toFixed(2)` on a general JS number (`NaN.toFixed(2) = "NaN"`,
`Infinity.toFixed(2) = "Infinity"`). -/
def jsToFixed2 (x : JSNum) : String :=
  match x with
  | .nan => "NaN"
  | .inf p => if p then "Infinity" else "-Infinity"
  | .num q => toFixed2 q

/-- One device record of an API success payload.  `power` models
`parseFloat(device.power)`: `some q` when the parse yields the finite value
`q`, `none` when it yields `NaN`. -/
structure Device where
  sn : String
  power : Option Rat
  status : String
  last_updated : String
deriving DecidableEq

/-- The `summary` part of the report built by `aggregateResults`.  The
`generatedAt` wall-clock field is outside this pure model and is omitted. -/
structure Summary where
  totalDevices : Nat
  onlineDevices : Nat
  offlineDevices : Nat
  onlinePercentage : String
  totalPowerKW : String
  averagePowerKW : String
deriving DecidableEq

/-- The report returned by `aggregateResults`. -/
structure Report where
  summary : Summary
  devices : List Device
deriving DecidableEq

/-- `aggregateResults(results)` from deviceManager.js: flatten the success
payloads, count statuses, sum the parseable powers (`NaN` contributes 0), and
format the percentage / totals with `toFixed(2)`. -/
def aggregateResults (results : List (List Device)) : Report :=
  let flatResults := results.flatten
  let totalDevices := flatResults.length
  let onlineDevices := (flatResults.filter (fun d => d.status == "Online")).length
  let offlineDevices := (flatResults.filter (fun d => d.status == "Offline")).length
  let totalPower := flatResults.foldl
    (fun sum d => sum + (match d.power with | none => 0 | some p => p)) (0 : Rat)
  { summary :=
    { totalDevices := totalDevices
      onlineDevices := onlineDevices
      offlineDevices := offlineDevices
      onlinePercentage :=
        jsToFixed2 (jsMul (jsDiv (onlineDevices : Rat) (totalDevices : Rat)) 100) ++ "%"
      totalPowerKW := toFixed2 totalPower ++ " kW"
      averagePowerKW := jsToFixed2 (jsDiv totalPower (totalDevices : Rat)) ++ " kW" }
    devices := flatResults }

/-! ## api client module (queryDevices / queryDevicesWithRetry) -/

/-- `MAX_RETRIES` from the api client module. -/
def MAX_RETRIES : Nat := 3

/-- `RETRY_DELAY_MS` from the api client module. -/
def RETRY_DELAY_MS : Nat := 2000

/-- The `code` field of a rejection value: a numeric HTTP status, the string
`'NETWORK_ERROR'`, or absent (the plain `Error` thrown on a parse failure has
no `code` field). -/
inductive ErrCode where
  | status (n : Nat) : ErrCode
  | networkError : ErrCode
  | noCode : ErrCode
deriving DecidableEq

/-- A rejection value of `queryDevices`.  `retryable` is the boolean read by
the retry loop (`undefined` on a plain `Error` reads as `false`). -/
structure JsError where
  code : ErrCode
  message : String
  retryable : Bool
deriving DecidableEq

/-- What the network does on one physical request: a response with a status
code, raw body, and the result of `JSON.parse(body)` (`Except.error` carries
the exception message), or a connection-level error event. -/
inductive HttpEvent (J : Type) where
  | response (statusCode : Nat) (body : String) (parsed : Except String J) : HttpEvent J
  | networkError (message : String) : HttpEvent J

/-- `queryDevices` response classification (the `res.on('end')` and
`req.on('error')` handlers): 200 + parse → resolve; 200 + parse failure →
plain `Error` (not retryable, no code); 429 → retryable; otherwise retryable
iff the status is ≥ 500; connection error → retryable `NETWORK_ERROR`. -/
def queryDevices (ev : HttpEvent J) : Except JsError J :=
  match ev with
  | .response statusCode body parsed =>
    if statusCode = 200 then
      match parsed with
      | .ok data => .ok data
      | .error m => .error ⟨.noCode, "Failed to parse response: " ++ m, false⟩
    else if statusCode = 429 then
      .error ⟨.status 429, "Rate limited", true⟩
    else
      .error ⟨.status statusCode, body, decide (500 ≤ statusCode)⟩
  | .networkError m => .error ⟨.networkError, m, true⟩

/-- Observable steps of one item's retry loop: a physical transport call (with
its attempt number) or a backoff sleep (with its duration in ms). -/
inductive RetryEv where
  | call (attempt : Nat) : RetryEv
  | backoff (ms : Nat) : RetryEv
deriving DecidableEq

/-- `queryDevicesWithRetry(snList, attempt)`: call `queryDevices` on this
attempt's network event; on a retryable failure with `attempt < MAX_RETRIES`,
sleep `RETRY_DELAY_MS * attempt` and recurse with `attempt + 1`; otherwise
rethrow.  `events k` is the network behaviour of physical attempt `k`; the
returned list records the transport calls and backoffs in order. -/
def queryDevicesWithRetry (events : Nat → HttpEvent J) (attempt : Nat := 1) :
    Except JsError J × List RetryEv :=
  match queryDevices (events attempt) with
  | .ok data => (.ok data, [.call attempt])
  | .error e =>
    if _h : e.retryable = true ∧ attempt < MAX_RETRIES then
      let r := queryDevicesWithRetry events (attempt + 1)
      (r.1, .call attempt :: .backoff (RETRY_DELAY_MS * attempt) :: r.2)
    else
      (.error e, [.call attempt])
  termination_by MAX_RETRIES - attempt
  decreasing_by omega

/-! ## the driver loop (`main` in src/unnamed/part_000) -/

/-- The `error` field the driver records: `error.message || error` — the
message string when it is truthy (nonempty), else the whole error value. -/
inductive ErrRecord where
  | msg (s : String) : ErrRecord
  | whole (e : JsError) : ErrRecord
deriving DecidableEq

/-- `error.message || error`. -/
def recordOf (e : JsError) : ErrRecord :=
  if e.message = "" then .whole e else .msg e.message

/-- One entry of the driver's `errors` log:
`{ batch: batchNumber, devices: batch, error: error.message || error }`. -/
structure FailRecord where
  batch : Nat
  devices : List String
  error : ErrRecord
deriving DecidableEq

/-- Observable driver events: a RateGate admission (the single
`rateLimiter.enqueue` per item) or a retry-loop event of an item. -/
inductive DrvEv where
  | admission (item : Nat) : DrvEv
  | retry (item : Nat) (e : RetryEv) : DrvEv
deriving DecidableEq

/-- The driver loop of `main`, from item index `i` on.  Each item gets one
`rateLimiter.enqueue` (one admission) wrapping its whole retry run; on a
resolved response the driver pushes `response.data` to `results` only when
that field is present (`if (response.data)`); on a rejection it pushes a
`FailRecord`.  `events i k` is the network event of item `i`'s attempt `k`,
`dataField` models the `.data` access on the parsed response. -/
def driverGo (dataField : J → Option P) (events : Nat → Nat → HttpEvent J) :
    Nat → List (List String) → List P × List FailRecord × List DrvEv
  | _, [] => ([], [], [])
  | i, batch :: rest =>
    let r := queryDevicesWithRetry (events i) 1
    let tail := driverGo dataField events (i + 1) rest
    let evsHere := DrvEv.admission i :: r.2.map (DrvEv.retry i)
    match r.1 with
    | .ok data =>
      match dataField data with
      | some d => (d :: tail.1, tail.2.1, evsHere ++ tail.2.2)
      | none => (tail.1, tail.2.1, evsHere ++ tail.2.2)
    | .error e => (tail.1, ⟨i + 1, batch, recordOf e⟩ :: tail.2.1, evsHere ++ tail.2.2)

/-- `main`'s batch loop over the whole item list (successes, failures,
event trace). -/
def runDriver (items : List (List String)) (events : Nat → Nat → HttpEvent J)
    (dataField : J → Option P) : List P × List FailRecord × List DrvEv :=
  driverGo dataField events 0 items

/-- The executor outcome of item `i` (what `rateLimiter.enqueue` resolves or
rejects with). -/
def itemResult (events : Nat → Nat → HttpEvent J) (i : Nat) : Except JsError J :=
  (queryDevicesWithRetry (events i) 1).1

/-! ## rateLimiter.js timing model -/

namespace RateLimiter

/-- `Math.max(0, this.minIntervalMs - (now - this.lastRequestTime))` in
`processQueue`. -/
def waitTime (minIntervalMs lastRequestTime now : Int) : Int :=
  max 0 (minIntervalMs - (now - lastRequestTime))

/-- The admission instant of one dequeued request: the loop reads `now`,
sleeps `waitTime` when positive, and then stores the post-sleep clock into
`lastRequestTime` just before invoking the request.  With ideal timers the
admission happens at `now + waitTime`. -/
def admitAt (minIntervalMs lastRequestTime now : Int) : Int :=
  now + waitTime minIntervalMs lastRequestTime now

/-- The `processQueue` drain loop: given the stored `lastRequestTime` and the
clock readings `nows` taken at the top of each iteration, the list of
admission instants; each admission becomes the next `lastRequestTime`. -/
def processQueue (minIntervalMs : Int) (lastRequestTime : Int) :
    List Int → List Int
  | [] => []
  | now :: rest =>
    admitAt minIntervalMs lastRequestTime now ::
      processQueue minIntervalMs (admitAt minIntervalMs lastRequestTime now) rest

end RateLimiter

/-! ## signature.js

`crypto.createHash('md5')` is modelled by a full MD5 implementation over byte
lists (each byte a `Nat < 256`), with 32-bit words as `Nat` reduced mod
`2 ^ 32`. -/

/-- UTF-8 bytes of a string; the payloads signed by this program (endpoint
path, secret, decimal timestamp) are ASCII, where the code points are the
bytes. -/
def strBytes (s : String) : List Nat :=
  s.data.map Char.toNat

/-- `count` little-endian bytes of `n`. -/
def leBytes : Nat → Nat → List Nat
  | 0, _ => []
  | count + 1, n => n % 256 :: leBytes count (n / 256)

/-- A little-endian 32-bit word from (up to) 4 bytes. -/
def leWord (bs : List Nat) : Nat :=
  bs.foldr (fun b acc => acc * 256 + b) 0

/-- MD5 padding: append `0x80`, zero-fill to 56 mod 64, then the original bit
length as 8 little-endian bytes. -/
def md5Pad (m : List Nat) : List Nat :=
  m ++ 128 :: List.replicate ((119 - m.length % 64) % 64) 0 ++ leBytes 8 (8 * m.length)

/-- The 64 MD5 round constants `floor(abs(sin(i+1)) * 2^32)`. -/
def md5K : List Nat :=
  [3614090360, 3905402710, 606105819, 3250441966, 4118548399, 1200080426, 2821735955, 4249261313,
   1770035416, 2336552879, 4294925233, 2304563134, 1804603682, 4254626195, 2792965006, 1236535329,
   4129170786, 3225465664, 643717713, 3921069994, 3593408605, 38016083, 3634488961, 3889429448,
   568446438, 3275163606, 4107603335, 1163531501, 2850285829, 4243563512, 1735328473, 2368359562,
   4294588738, 2272392833, 1839030562, 4259657740, 2763975236, 1272893353, 4139469664, 3200236656,
   681279174, 3936430074, 3572445317, 76029189, 3654602809, 3873151461, 530742520, 3299628645,
   4096336452, 1126891415, 2878612391, 4237533241, 1700485571, 2399980690, 4293915773, 2240044497,
   1873313359, 4264355552, 2734768916, 1309151649, 4149444226, 3174756917, 718787259, 3951481745]

/-- The 64 MD5 per-round left-rotation amounts. -/
def md5S : List Nat :=
  [7, 12, 17, 22, 7, 12, 17, 22, 7, 12, 17, 22, 7, 12, 17, 22,
   5, 9, 14, 20, 5, 9, 14, 20, 5, 9, 14, 20, 5, 9, 14, 20,
   4, 11, 16, 23, 4, 11, 16, 23, 4, 11, 16, 23, 4, 11, 16, 23,
   6, 10, 15, 21, 6, 10, 15, 21, 6, 10, 15, 21, 6, 10, 15, 21]

/-- 32-bit left rotation (operand < 2^32). -/
def rotl32 (x s : Nat) : Nat :=
  ((x <<< s) % 4294967296) ||| (x >>> (32 - s))

/-- The MD5 round mixing function for round `i`. -/
def md5F (i b c d : Nat) : Nat :=
  if i < 16 then (b &&& c) ||| ((4294967295 ^^^ b) &&& d)
  else if i < 32 then (d &&& b) ||| ((4294967295 ^^^ d) &&& c)
  else if i < 48 then b ^^^ c ^^^ d
  else c ^^^ (b ||| (4294967295 ^^^ d))

/-- The message-word index used in round `i`. -/
def md5G (i : Nat) : Nat :=
  if i < 16 then i
  else if i < 32 then (5 * i + 1) % 16
  else if i < 48 then (3 * i + 5) % 16
  else (7 * i) % 16

/-- One MD5 round on state `(a, b, c, d)` with message words `M`. -/
def md5Round (M : List Nat) (st : Nat × Nat × Nat × Nat) (i : Nat) :
    Nat × Nat × Nat × Nat :=
  let a := st.1
  let b := st.2.1
  let c := st.2.2.1
  let d := st.2.2.2
  let f := (md5F i b c d + a + md5K.getD i 0 + M.getD (md5G i) 0) % 4294967296
  (d, (b + rotl32 f (md5S.getD i 0)) % 4294967296, b, c)

/-- Process one 512-bit block (16 words `M`) and add the result into the
running state. -/
def md5Block (st : Nat × Nat × Nat × Nat) (M : List Nat) :
    Nat × Nat × Nat × Nat :=
  let r := (List.range 64).foldl (md5Round M) st
  ((st.1 + r.1) % 4294967296, (st.2.1 + r.2.1) % 4294967296,
   (st.2.2.1 + r.2.2.1) % 4294967296, (st.2.2.2 + r.2.2.2) % 4294967296)

/-- The MD5 initial state. -/
def md5Init : Nat × Nat × Nat × Nat :=
  (1732584193, 4023233417, 2562383102, 271733878)

/-- The 16-byte MD5 digest of a byte list. -/
def md5Bytes (m : List Nat) : List Nat :=
  let padded := md5Pad m
  let st := (chunksOf 64 padded.length padded).foldl
    (fun st blk => md5Block st ((chunksOf 4 64 blk).map leWord)) md5Init
  leBytes 4 st.1 ++ leBytes 4 st.2.1 ++ leBytes 4 st.2.2.1 ++ leBytes 4 st.2.2.2

/-- The lowercase hexadecimal digits. -/
def hexDigits : List Char :=
  "0123456789abcdef".data

/-- The lowercase hex digit of `n < 16`. -/
def hexDigit (n : Nat) : Char :=
  hexDigits.getD n 'x'

/-- Two lowercase hex characters of a byte. -/
def hexByte (b : Nat) : List Char :=
  [hexDigit (b / 16 % 16), hexDigit (b % 16)]

/-- `.digest('hex')`: the digest rendered as 32 lowercase hex characters. -/
def md5Hex (m : List Nat) : String :=
  String.mk ((md5Bytes m).flatMap hexByte)

/-- `TOKEN` from signature.js. -/
def TOKEN : String := "interview_token_123"

/-- `generateSignature(url, timestamp)` from signature.js: the lowercase hex
MD5 digest of `url + TOKEN + timestamp` (JS string concatenation; the
timestamp number renders in decimal). -/
def generateSignature (url : String) (timestamp : Nat) : String :=
  md5Hex (strBytes (url ++ TOKEN ++ toString timestamp))

/-! ## Concrete network behaviours used in closed runs -/

/-- A network where every item's attempt 1 fails at the connection level and
every later attempt returns a parseable 200 response. -/
def oneRetryEvents : Nat → Nat → HttpEvent Unit := fun _ attempt =>
  if attempt = 1 then .networkError "boom" else .response 200 "{}" (.ok ())

/-- A network where every attempt returns a parseable 200 response. -/
def allOkEvents : Nat → Nat → HttpEvent Unit := fun _ _ =>
  .response 200 "{}" (.ok ())

/-- A network where every attempt returns HTTP 500 with body `"boom"`. -/
def always500Events : Nat → Nat → HttpEvent Unit := fun _ _ =>
  .response 500 "boom" (.error "x")

/-- A network where every attempt fails at the connection level with message
`"boom"`. -/
def alwaysNetErrEvents : Nat → Nat → HttpEvent Unit := fun _ _ =>
  .networkError "boom"

end Arkahub

/-! Sanity anchors for the MD5 model against the standard test vectors. -/

set_option maxRecDepth 4000

/-- MD5 of the empty message matches the RFC 1321 test vector. -/
theorem md5Hex_nil : Arkahub.md5Hex [] = "d41d8cd98f00b204e9800998ecf8427e" := by
  decide

/-- MD5 of `"abc"` matches the RFC 1321 test vector. -/
theorem md5Hex_abc :
    Arkahub.md5Hex (Arkahub.strBytes "abc") = "900150983cd24fb0d6963f7d28e17f72" := by
  decide

/-! ## General slicing lemmas -/

/-- With `0 < n` and enough fuel, the slices concatenate back to the input. -/
theorem chunksOf_flatten (n : Nat) (hn : 0 < n) :
    ∀ (fuel : Nat) (l : List α), l.length ≤ fuel →
      (Arkahub.chunksOf n fuel l).flatten = l := by
  intro fuel
  induction fuel with
  | zero =>
    intro l hl
    cases l with
    | nil => rfl
    | cons x xs => simp at hl
  | succ fuel ih =>
    intro l hl
    cases l with
    | nil => rfl
    | cons x xs =>
      simp only [Arkahub.chunksOf, List.isEmpty_cons, Bool.false_eq_true, if_false,
        List.flatten_cons]
      rw [ih ((x :: xs).drop n) (by simp only [List.length_drop]; simp at hl ⊢; omega)]
      exact List.take_append_drop n (x :: xs)

/-- Every slice has at most `n` elements. -/
theorem chunksOf_le (n : Nat) :
    ∀ (fuel : Nat) (l : List α) (b : List α), b ∈ Arkahub.chunksOf n fuel l →
      b.length ≤ n := by
  intro fuel
  induction fuel with
  | zero => intro l b hb; simp [Arkahub.chunksOf] at hb
  | succ fuel ih =>
    intro l b hb
    cases l with
    | nil => simp [Arkahub.chunksOf] at hb
    | cons x xs =>
      simp only [Arkahub.chunksOf, List.isEmpty_cons, Bool.false_eq_true, if_false,
        List.mem_cons] at hb
      rcases hb with hb | hb
      · subst hb; simp
      · exact ih _ _ hb

/-- With `0 < n`, every slice except possibly the last has exactly `n`
elements. -/
theorem chunksOf_dropLast (n : Nat) :
    ∀ (fuel : Nat) (l : List α) (b : List α),
      b ∈ (Arkahub.chunksOf n fuel l).dropLast → b.length = n := by
  intro fuel
  induction fuel with
  | zero => intro l b hb; simp [Arkahub.chunksOf] at hb
  | succ fuel ih =>
    intro l b hb
    cases l with
    | nil => simp [Arkahub.chunksOf] at hb
    | cons x xs =>
      simp only [Arkahub.chunksOf, List.isEmpty_cons, Bool.false_eq_true, if_false] at hb
      rcases hrest : Arkahub.chunksOf n fuel ((x :: xs).drop n) with _ | ⟨c, cs⟩
      · rw [hrest] at hb
        simp at hb
      · rw [hrest, List.dropLast_cons₂, List.mem_cons] at hb
        rcases hb with hb | hb
        · subst hb
          have hlong : n < (x :: xs).length := by
            by_contra hle
            push_neg at hle
            have : (x :: xs).drop n = [] := List.drop_eq_nil_of_le hle
            rw [this] at hrest
            cases fuel <;> simp [Arkahub.chunksOf] at hrest
          simp [List.length_take]
          simp at hlong
          omega
        · exact ih _ _ (by rw [hrest]; exact hb)

/-! ## Evaluation lemmas for the JS-number formatting -/

/-- `Rat.floor` agrees with the `⌊ ⌋` of the `FloorRing` instance. -/
theorem ratFloor_eq_intFloor (q : Rat) : Rat.floor q = ⌊q⌋ := by
  rw [Rat.floor_def', ← Rat.floor_def]

/-- `toFixed2` on a value that is a whole number of hundredths. -/
theorem toFixed2_eq (q : Rat) (n : Nat) (h : q * 100 = (n : Rat)) :
    Arkahub.toFixed2 q = toString (n / 100) ++ "." ++ Arkahub.pad2 (n % 100) := by
  unfold Arkahub.toFixed2 Arkahub.roundHalfAway
  rw [h]
  have hnn : ¬((n : Rat) < 0) := not_lt.mpr (by positivity)
  rw [if_neg hnn, ratFloor_eq_intFloor]
  have hfl : ⌊(n : Rat) + 1 / 2⌋ = (n : Int) := by
    rw [Int.floor_eq_iff]
    constructor
    · push_cast; linarith
    · push_cast; linarith
  rw [hfl, if_neg (not_lt.mpr (by positivity)), Int.toNat_natCast]

/-- `jsDiv` on a nonzero denominator. -/
theorem jsDiv_num (a b : Rat) (hb : b ≠ 0) : Arkahub.jsDiv a b = .num (a / b) := by
  simp [Arkahub.jsDiv, hb]

/-! ## Claim theorems -/

/-- C8: `createBatches` with batch size 10 splits any list into consecutive
slices, in order, whose concatenation equals the input, each of length at most
10 and every slice but the last of length exactly 10; a population of 25
identifiers yields exactly 3 batches of sizes 10, 10, 5, the last batch being
the serials at indices 20 through 24. -/
theorem createBatches_spec (l : List String) :
    ((Arkahub.createBatches l 10).flatten = l
      ∧ (∀ b ∈ Arkahub.createBatches l 10, b.length ≤ 10)
      ∧ (∀ b ∈ (Arkahub.createBatches l 10).dropLast, b.length = 10))
    ∧ (Arkahub.createBatches (Arkahub.generateSerialNumbers 25) 10).length = 3
    ∧ (Arkahub.createBatches (Arkahub.generateSerialNumbers 25) 10).map List.length
        = [10, 10, 5]
    ∧ (Arkahub.createBatches (Arkahub.generateSerialNumbers 25) 10).getLast?
        = some ["SN-020", "SN-021", "SN-022", "SN-023", "SN-024"] := by
  refine ⟨⟨?_, ?_, ?_⟩, ?_, ?_, ?_⟩
  · exact chunksOf_flatten 10 (by omega) l.length l le_rfl
  · intro b hb; exact chunksOf_le 10 l.length l b hb
  · intro b hb; exact chunksOf_dropLast 10 l.length l b hb
  · decide
  · decide
  · decide

/-- Witness for C8: the first batch of the 25-serial population is a member of
`dropLast` of the batch list, so the theorem makes it have exactly 10
elements. -/
theorem createBatches_spec_witness :
    (["SN-000", "SN-001", "SN-002", "SN-003", "SN-004",
      "SN-005", "SN-006", "SN-007", "SN-008", "SN-009"] : List String).length = 10 :=
  (createBatches_spec (Arkahub.generateSerialNumbers 25)).1.2.2 _ (by decide)

/-- C10: `aggregateResults` on an empty results list does not error; the
counts and the total power are zero, and the unguarded divisions by
`totalDevices` make the percentage `"NaN%"` and the average `"NaN kW"`. -/
theorem aggregateResults_empty :
    Arkahub.aggregateResults [] =
      { summary :=
        { totalDevices := 0
          onlineDevices := 0
          offlineDevices := 0
          onlinePercentage := "NaN%"
          totalPowerKW := "0.00 kW"
          averagePowerKW := "NaN kW" }
        devices := [] } := by
  unfold Arkahub.aggregateResults
  simp only [List.flatten_nil, List.length_nil, List.filter_nil, List.foldl_nil,
    Nat.cast_zero]
  have hdiv : Arkahub.jsDiv (0 : Rat) (0 : Rat) = .nan := by simp [Arkahub.jsDiv]
  rw [hdiv]
  have hfix0 : Arkahub.toFixed2 (0 : Rat) = "0.00" := by
    rw [toFixed2_eq 0 0 (by norm_num)]; rfl
  rw [hfix0]
  rfl

/-- C9: aggregation over two success payloads holding 15 devices in total, 9
`Online`, 6 `Offline`, with parseable powers summing to 37.5, reports
`onlinePercentage "60.00%"`, `totalPowerKW "37.50 kW"`,
`averagePowerKW "2.50 kW"` and the counts 15 / 9 / 6. -/
theorem aggregateResults_scenario (p1 p2 : List Arkahub.Device)
    (hlen : (p1 ++ p2).length = 15)
    (hon : ((p1 ++ p2).filter (fun d => d.status == "Online")).length = 9)
    (hoff : ((p1 ++ p2).filter (fun d => d.status == "Offline")).length = 6)
    (hpow : (p1 ++ p2).foldl
      (fun sum d => sum + (match d.power with | none => 0 | some p => p)) (0 : Rat)
        = 75 / 2) :
    (Arkahub.aggregateResults [p1, p2]).summary =
      { totalDevices := 15
        onlineDevices := 9
        offlineDevices := 6
        onlinePercentage := "60.00%"
        totalPowerKW := "37.50 kW"
        averagePowerKW := "2.50 kW" } := by
  have hflat : ([p1, p2] : List (List Arkahub.Device)).flatten = p1 ++ p2 := by simp
  simp only [Arkahub.aggregateResults, hflat, hlen, hon, hoff, hpow, Nat.cast_ofNat]
  rw [jsDiv_num 9 15 (by norm_num), jsDiv_num (75 / 2) 15 (by norm_num)]
  simp only [Arkahub.jsMul, Arkahub.jsToFixed2]
  rw [toFixed2_eq (9 / 15 * 100) 6000 (by norm_num),
    toFixed2_eq (75 / 2) 3750 (by norm_num),
    toFixed2_eq (75 / 2 / 15) 250 (by norm_num)]
  rfl

/-- Witness for C9: a concrete pair of payloads (10 + 5 devices, 9 online at
2.5 kW each, 6 offline at 2.5 kW each). -/
theorem aggregateResults_scenario_witness :
    (Arkahub.aggregateResults
      [List.replicate 9 ⟨"SN-000", some (5 / 2), "Online", "t"⟩ ++
        [⟨"SN-009", some (5 / 2), "Offline", "t"⟩],
       List.replicate 5 ⟨"SN-010", some (5 / 2), "Offline", "t"⟩]).summary =
      { totalDevices := 15
        onlineDevices := 9
        offlineDevices := 6
        onlinePercentage := "60.00%"
        totalPowerKW := "37.50 kW"
        averagePowerKW := "2.50 kW" } :=
  aggregateResults_scenario _ _ (by decide) (by decide) (by decide)
    (by norm_num [List.replicate])

/-! ## Unfolding lemmas for the retry loop -/

/-- A successful attempt returns immediately with that result. -/
theorem qdwr_ok {J : Type} (events : Nat → Arkahub.HttpEvent J) (k : Nat) (j : J)
    (h : Arkahub.queryDevices (events k) = .ok j) :
    Arkahub.queryDevicesWithRetry events k = (.ok j, [.call k]) := by
  rw [Arkahub.queryDevicesWithRetry, h]

/-- A retryable failure below the attempt budget performs exactly one backoff
of `RETRY_DELAY_MS * k` and continues with attempt `k + 1`. -/
theorem qdwr_retry {J : Type} (events : Nat → Arkahub.HttpEvent J) (k : Nat)
    (e : Arkahub.JsError) (h : Arkahub.queryDevices (events k) = .error e)
    (hr : e.retryable = true) (hk : k < Arkahub.MAX_RETRIES) :
    Arkahub.queryDevicesWithRetry events k =
      ((Arkahub.queryDevicesWithRetry events (k + 1)).1,
        .call k :: .backoff (Arkahub.RETRY_DELAY_MS * k) ::
          (Arkahub.queryDevicesWithRetry events (k + 1)).2) := by
  rw [Arkahub.queryDevicesWithRetry, h]
  exact dif_pos ⟨hr, hk⟩

/-- A failure that is non-retryable, or arrives with the attempt budget spent,
is rethrown unchanged with no further transport call. -/
theorem qdwr_stop {J : Type} (events : Nat → Arkahub.HttpEvent J) (k : Nat)
    (e : Arkahub.JsError) (h : Arkahub.queryDevices (events k) = .error e)
    (hstop : ¬(e.retryable = true ∧ k < Arkahub.MAX_RETRIES)) :
    Arkahub.queryDevicesWithRetry events k = (.error e, [.call k]) := by
  rw [Arkahub.queryDevicesWithRetry, h]
  exact dif_neg hstop

/-- C4: `queryDevices` classifies every outcome as specified: 200 + parseable
body resolves with the data; 200 + unparseable body rejects non-retryably
with no code (the ParseError case); 429 rejects retryably (RateLimited);
status ≥ 500 rejects retryably (ServerError); any other 4xx rejects
non-retryably (ClientError); a connection-level failure rejects retryably
with code `NETWORK_ERROR`. -/
theorem queryDevices_classification {J : Type} :
    (∀ (body : String) (j : J),
        Arkahub.queryDevices (.response 200 body (.ok j)) = .ok j)
    ∧ (∀ (body m : String),
        Arkahub.queryDevices (J := J) (.response 200 body (.error m)) =
          .error ⟨.noCode, "Failed to parse response: " ++ m, false⟩)
    ∧ (∀ (body : String) (p : Except String J),
        Arkahub.queryDevices (.response 429 body p) =
          .error ⟨.status 429, "Rate limited", true⟩)
    ∧ (∀ (s : Nat) (body : String) (p : Except String J), 500 ≤ s →
        Arkahub.queryDevices (.response s body p) = .error ⟨.status s, body, true⟩)
    ∧ (∀ (s : Nat) (body : String) (p : Except String J),
        400 ≤ s → s < 500 → s ≠ 429 →
        Arkahub.queryDevices (.response s body p) = .error ⟨.status s, body, false⟩)
    ∧ (∀ (m : String),
        Arkahub.queryDevices (J := J) (.networkError m) =
          .error ⟨.networkError, m, true⟩) := by
  refine ⟨fun body j => rfl, fun body m => rfl, fun body p => rfl, ?_, ?_, fun m => rfl⟩
  · intro s body p hs
    have h200 : ¬(s = 200) := by omega
    have h429 : ¬(s = 429) := by omega
    simp only [Arkahub.queryDevices, if_neg h200, if_neg h429, decide_eq_true hs]
  · intro s body p h4 h5 h429
    have h200 : ¬(s = 200) := by omega
    simp only [Arkahub.queryDevices, if_neg h200, if_neg h429,
      decide_eq_false (by omega : ¬(500 ≤ s))]

/-- Witness for C4: the 503 and 404 cases at concrete inputs. -/
theorem queryDevices_classification_witness :
    Arkahub.queryDevices (J := Unit) (.response 503 "oops" (.error "x")) =
        .error ⟨.status 503, "oops", true⟩
    ∧ Arkahub.queryDevices (J := Unit) (.response 404 "nope" (.error "x")) =
        .error ⟨.status 404, "nope", false⟩ :=
  ⟨queryDevices_classification.2.2.2.1 503 "oops" _ (by omega),
   queryDevices_classification.2.2.2.2.1 404 "nope" _ (by omega) (by omega) (by omega)⟩

/-- C5: in `queryDevicesWithRetry`, a retryable failure on attempt `k` with
`k < MAX_RETRIES` causes exactly one retry, performed after a backoff of
`RETRY_DELAY_MS * k`; a non-retryable failure causes zero retries; a success
at any attempt returns immediately with that result. -/
theorem queryDevicesWithRetry_schedule {J : Type}
    (events : Nat → Arkahub.HttpEvent J) (k : Nat) :
    (∀ e, Arkahub.queryDevices (events k) = .error e → e.retryable = true →
      k < Arkahub.MAX_RETRIES →
      Arkahub.queryDevicesWithRetry events k =
        ((Arkahub.queryDevicesWithRetry events (k + 1)).1,
          .call k :: .backoff (Arkahub.RETRY_DELAY_MS * k) ::
            (Arkahub.queryDevicesWithRetry events (k + 1)).2))
    ∧ (∀ e, Arkahub.queryDevices (events k) = .error e → e.retryable = false →
        Arkahub.queryDevicesWithRetry events k = (.error e, [.call k]))
    ∧ (∀ j, Arkahub.queryDevices (events k) = .ok j →
        Arkahub.queryDevicesWithRetry events k = (.ok j, [.call k])) := by
  refine ⟨fun e h hr hk => qdwr_retry events k e h hr hk, ?_, fun j h => qdwr_ok events k j h⟩
  intro e h hr
  exact qdwr_stop events k e h (by simp [hr])

/-- Witness for C5: with attempt 1 failing at the connection level, the run
from attempt 1 backs off `RETRY_DELAY_MS * 1 = 2000` ms and continues with
attempt 2. -/
theorem queryDevicesWithRetry_schedule_witness :
    Arkahub.queryDevicesWithRetry (Arkahub.oneRetryEvents 0) 1 =
      ((Arkahub.queryDevicesWithRetry (Arkahub.oneRetryEvents 0) 2).1,
        .call 1 :: .backoff 2000 ::
          (Arkahub.queryDevicesWithRetry (Arkahub.oneRetryEvents 0) 2).2) :=
  (queryDevicesWithRetry_schedule (Arkahub.oneRetryEvents 0) 1).1
    ⟨.networkError, "boom", true⟩ rfl rfl (by decide)

/-- Counterexample to C6 as stated: the driver's failure record keeps only
`error.message`, not the error's kind.  Two runs whose final errors differ in
kind (HTTP 500 `ServerError` vs connection-level `NetworkError`) but share
the message `"boom"` leave identical failure logs, while the executor results
themselves differ — so the recorded failure does not preserve the kind. -/
theorem driver_record_loses_kind :
    (Arkahub.runDriver [["SN-000"]] Arkahub.always500Events
        (fun _ => some ())).2.1 =
      (Arkahub.runDriver [["SN-000"]] Arkahub.alwaysNetErrEvents
        (fun _ => some ())).2.1
    ∧ Arkahub.itemResult Arkahub.always500Events 0 ≠
        Arkahub.itemResult Arkahub.alwaysNetErrEvents 0 := by
  have hqA : Arkahub.queryDevicesWithRetry (Arkahub.always500Events 0) 1 =
      (.error ⟨.status 500, "boom", true⟩,
        [.call 1, .backoff 2000, .call 2, .backoff 4000, .call 3]) := by
    rw [qdwr_retry (Arkahub.always500Events 0) 1 ⟨.status 500, "boom", true⟩ rfl rfl
        (by decide),
      qdwr_retry (Arkahub.always500Events 0) 2 ⟨.status 500, "boom", true⟩ rfl rfl
        (by decide),
      qdwr_stop (Arkahub.always500Events 0) 3 ⟨.status 500, "boom", true⟩ rfl (by decide)]
    rfl
  have hqB : Arkahub.queryDevicesWithRetry (Arkahub.alwaysNetErrEvents 0) 1 =
      (.error ⟨.networkError, "boom", true⟩,
        [.call 1, .backoff 2000, .call 2, .backoff 4000, .call 3]) := by
    rw [qdwr_retry (Arkahub.alwaysNetErrEvents 0) 1 ⟨.networkError, "boom", true⟩ rfl rfl
        (by decide),
      qdwr_retry (Arkahub.alwaysNetErrEvents 0) 2 ⟨.networkError, "boom", true⟩ rfl rfl
        (by decide),
      qdwr_stop (Arkahub.alwaysNetErrEvents 0) 3 ⟨.networkError, "boom", true⟩ rfl
        (by decide)]
    rfl
  constructor
  · simp [Arkahub.runDriver, Arkahub.driverGo, hqA, hqB, Arkahub.recordOf]
  · simp [Arkahub.itemResult, hqA, hqB]

/-- C6 (amended): when all `MAX_RETRIES` attempts fail with retryable
failures, the executor returns the last failure unchanged and the driver
records the item as failed with that last error's *message* preserved (the
record is `error.message || error`, so the kind/code field is dropped
whenever the message is nonempty); a non-retryable failure is returned
unchanged immediately and recorded the same way. -/
theorem retry_exhaustion_surfaces_last_error {J P : Type}
    (events : Nat → Nat → Arkahub.HttpEvent J) (dataField : J → Option P)
    (batch : List String) (e1 e2 e3 : Arkahub.JsError)
    (h1 : Arkahub.queryDevices (events 0 1) = .error e1) (hr1 : e1.retryable = true)
    (h2 : Arkahub.queryDevices (events 0 2) = .error e2) (hr2 : e2.retryable = true)
    (h3 : Arkahub.queryDevices (events 0 3) = .error e3) (_hr3 : e3.retryable = true)
    (hm : e3.message ≠ "") :
    (Arkahub.itemResult events 0 = .error e3
      ∧ (Arkahub.runDriver [batch] events dataField).2.1 =
          [⟨1, batch, .msg e3.message⟩])
    ∧ (∀ (events2 : Nat → Nat → Arkahub.HttpEvent J) (e : Arkahub.JsError),
        Arkahub.queryDevices (events2 0 1) = .error e → e.retryable = false →
        Arkahub.itemResult events2 0 = .error e
          ∧ (Arkahub.runDriver [batch] events2 dataField).2.1 =
              [⟨1, batch, Arkahub.recordOf e⟩]) := by
  have hq : Arkahub.queryDevicesWithRetry (events 0) 1 =
      (.error e3,
        [.call 1, .backoff 2000, .call 2, .backoff 4000, .call 3]) := by
    rw [qdwr_retry (events 0) 1 e1 h1 hr1 (by decide),
      qdwr_retry (events 0) 2 e2 h2 hr2 (by decide),
      qdwr_stop (events 0) 3 e3 h3 (fun hc => absurd hc.2 (by decide))]
    rfl
  constructor
  · constructor
    · simp [Arkahub.itemResult, hq]
    · simp [Arkahub.runDriver, Arkahub.driverGo, hq, Arkahub.recordOf, hm]
  · intro events2 e h hr
    have hq2 : Arkahub.queryDevicesWithRetry (events2 0) 1 = (.error e, [.call 1]) :=
      qdwr_stop (events2 0) 1 e h (by simp [hr])
    constructor
    · simp [Arkahub.itemResult, hq2]
    · simp [Arkahub.runDriver, Arkahub.driverGo, hq2]

/-- Witness for C6: three consecutive HTTP 500 responses leave the 500 error
(with its message) as the surfaced result and the recorded failure. -/
theorem retry_exhaustion_surfaces_last_error_witness :
    Arkahub.itemResult Arkahub.always500Events 0 =
        .error ⟨.status 500, "boom", true⟩
    ∧ (Arkahub.runDriver [["SN-000"]] Arkahub.always500Events
        (fun _ => some ())).2.1 = [⟨1, ["SN-000"], .msg "boom"⟩] :=
  (retry_exhaustion_surfaces_last_error Arkahub.always500Events (fun _ => some ())
    ["SN-000"] ⟨.status 500, "boom", true⟩ ⟨.status 500, "boom", true⟩
    ⟨.status 500, "boom", true⟩ rfl rfl rfl rfl rfl rfl (by decide)).1

/-- Full characterisation of the driver loop from any start index: the
success log is the in-order data of resolved items whose response carries a
data field, the failure log is the in-order records of rejected items, and
there is exactly one admission per item. -/
theorem driverGo_outputs {J P : Type} (dataField : J → Option P)
    (events : Nat → Nat → Arkahub.HttpEvent J) :
    ∀ (items : List (List String)) (i : Nat),
      (Arkahub.driverGo dataField events i items).1 =
        (List.enumFrom i items).filterMap (fun p =>
          match Arkahub.itemResult events p.1 with
          | .ok j => dataField j
          | .error _ => none)
      ∧ (Arkahub.driverGo dataField events i items).2.1 =
        (List.enumFrom i items).filterMap (fun p =>
          match Arkahub.itemResult events p.1 with
          | .error e => some ⟨p.1 + 1, p.2, Arkahub.recordOf e⟩
          | .ok _ => none)
      ∧ (Arkahub.driverGo dataField events i items).2.2.countP
          (fun ev => match ev with | .admission _ => true | _ => false)
          = items.length := by
  intro items
  induction items with
  | nil => intro i; exact ⟨rfl, rfl, rfl⟩
  | cons b rest ih =>
    intro i
    obtain ⟨ih1, ih2, ih3⟩ := ih (i + 1)
    have hfold : ∀ k, (Arkahub.queryDevicesWithRetry (events k) 1).1 =
        Arkahub.itemResult events k := fun _ => rfl
    simp only [Arkahub.driverGo, List.enumFrom, List.filterMap_cons, hfold]
    rcases hres : Arkahub.itemResult events i with e | j
    · simp only [hres]
      refine ⟨ih1, by rw [ih2], ?_⟩
      simp [List.countP_cons, List.countP_map, Function.comp_def, ih3]
    · rcases hdf : dataField j with _ | d
      · simp only [hres, hdf]
        refine ⟨ih1, ih2, ?_⟩
        simp [List.countP_cons, List.countP_map, Function.comp_def, ih3]
      · simp only [hres, hdf]
        refine ⟨by rw [ih1], ih2, ?_⟩
        simp [List.countP_cons, List.countP_map, Function.comp_def, ih3]

/-- C3 (amended): the driver processes each item exactly once, in submission
order (one admission per item), and the two result logs are order-preserving:
a rejected item contributes `{batch, devices, error}` to `failures`, a
resolved item contributes its `response.data` to `successes` *when that field
is present*, and a resolved response without a data field is appended to
neither log (`if (response.data)`); a failed item never aborts the run. -/
theorem runDriver_ordered_partition {J P : Type} (items : List (List String))
    (events : Nat → Nat → Arkahub.HttpEvent J) (dataField : J → Option P) :
    (Arkahub.runDriver items events dataField).1 =
      items.enum.filterMap (fun p =>
        match Arkahub.itemResult events p.1 with
        | .ok j => dataField j
        | .error _ => none)
    ∧ (Arkahub.runDriver items events dataField).2.1 =
      items.enum.filterMap (fun p =>
        match Arkahub.itemResult events p.1 with
        | .error e => some ⟨p.1 + 1, p.2, Arkahub.recordOf e⟩
        | .ok _ => none)
    ∧ (Arkahub.runDriver items events dataField).2.2.countP
        (fun ev => match ev with | .admission _ => true | _ => false) = items.length :=
  driverGo_outputs dataField events items 0

/-- Counterexample to C3 as stated: one item whose execution succeeds with a
parseable 200 response that has no `data` field is recorded in *neither* log,
so the logs do not partition the input (0 outcomes recorded for 1 item). -/
theorem driver_drops_dataless_success :
    (Arkahub.runDriver [["SN-000"]] Arkahub.allOkEvents
        (fun _ : Unit => (none : Option Unit))).1.length
      + (Arkahub.runDriver [["SN-000"]] Arkahub.allOkEvents
          (fun _ : Unit => (none : Option Unit))).2.1.length
      ≠ ([["SN-000"]] : List (List String)).length := by
  have hq : Arkahub.queryDevicesWithRetry (Arkahub.allOkEvents 0) 1 =
      (.ok (), [.call 1]) := qdwr_ok (Arkahub.allOkEvents 0) 1 () rfl
  simp [Arkahub.runDriver, Arkahub.driverGo, hq]

/-- C1 (evaluating the code at the failing input): with one retryable failure
followed by a success, the WorkItem's execution performs two physical
transport calls but is covered by a single RateGate admission — the driver
wraps the whole retry loop in one `rateLimiter.enqueue`, so retries never
re-acquire the gate. -/
theorem single_admission_covers_retried_calls :
    (Arkahub.runDriver [["SN-000"]] Arkahub.oneRetryEvents
        (fun _ => some ())).2.2.countP
        (fun ev => match ev with | .admission _ => true | _ => false) = 1
    ∧ (Arkahub.runDriver [["SN-000"]] Arkahub.oneRetryEvents
        (fun _ => some ())).2.2.countP
        (fun ev => match ev with | .retry _ (.call _) => true | _ => false) = 2 := by
  have hq : Arkahub.queryDevicesWithRetry (Arkahub.oneRetryEvents 0) 1 =
      (.ok (), [.call 1, .backoff 2000, .call 2]) := by
    rw [qdwr_retry (Arkahub.oneRetryEvents 0) 1 ⟨.networkError, "boom", true⟩ rfl rfl
        (by decide),
      qdwr_ok (Arkahub.oneRetryEvents 0) 2 () rfl]
    rfl
  constructor <;> simp [Arkahub.runDriver, Arkahub.driverGo, hq]

/-- An admission never lands earlier than `minInterval` past the stored
`lastRequestTime`. -/
theorem le_admitAt (mi last now : Int) :
    last + mi ≤ Arkahub.RateLimiter.admitAt mi last now := by
  unfold Arkahub.RateLimiter.admitAt Arkahub.RateLimiter.waitTime
  rcases le_total (mi - (now - last)) 0 with h | h
  · rw [max_eq_left h]; omega
  · rw [max_eq_right h]; omega

/-- Successive admission instants produced by the drain loop are always at
least `minInterval` apart, from any stored `lastRequestTime`. -/
theorem processQueue_chain (mi : Int) :
    ∀ (nows : List Int) (last : Int),
      List.Chain' (fun a b => a + mi ≤ b)
        (Arkahub.RateLimiter.processQueue mi last nows) := by
  intro nows
  induction nows with
  | nil => intro last; simp [Arkahub.RateLimiter.processQueue]
  | cons n rest ih =>
    intro last
    rw [Arkahub.RateLimiter.processQueue, List.chain'_cons']
    refine ⟨?_, ih _⟩
    intro y hy
    cases rest with
    | nil => simp [Arkahub.RateLimiter.processQueue] at hy
    | cons m r2 =>
      simp only [Arkahub.RateLimiter.processQueue, List.head?_cons, Option.mem_def,
        Option.some.injEq] at hy
      subst hy
      exact le_admitAt mi _ m

/-- C2: for every sequence of clock readings, any two successive admissions
granted by the rate limiter's `processQueue` are at least `minIntervalMs`
apart; because `lastRequestTime` starts at 0 (the far past), the first
admission waits zero time whenever the clock has passed `minIntervalMs`; and
each admission instant becomes the `lastRequestTime` for the next
iteration. -/
theorem rateGate_spacing (mi : Int) (nows : List Int) :
    List.Chain' (fun a b => a + mi ≤ b) (Arkahub.RateLimiter.processQueue mi 0 nows)
    ∧ (∀ n0 rest, nows = n0 :: rest → mi ≤ n0 →
        Arkahub.RateLimiter.waitTime mi 0 n0 = 0
          ∧ (Arkahub.RateLimiter.processQueue mi 0 nows).head? = some n0)
    ∧ (∀ (last now : Int) (rest : List Int),
        Arkahub.RateLimiter.processQueue mi last (now :: rest) =
          Arkahub.RateLimiter.admitAt mi last now ::
            Arkahub.RateLimiter.processQueue mi
              (Arkahub.RateLimiter.admitAt mi last now) rest) := by
  refine ⟨processQueue_chain mi nows 0, ?_, fun last now rest => rfl⟩
  intro n0 rest hn hmi
  have hw : Arkahub.RateLimiter.waitTime mi 0 n0 = 0 := by
    unfold Arkahub.RateLimiter.waitTime
    exact max_eq_left (by omega)
  subst hn
  refine ⟨hw, ?_⟩
  simp [Arkahub.RateLimiter.processQueue, Arkahub.RateLimiter.admitAt, hw]

/-- Witness for C2: with `minIntervalMs = 1100` and clock readings 2000,
2500, 5000 the first admission happens at once. -/
theorem rateGate_spacing_witness :
    Arkahub.RateLimiter.waitTime 1100 0 2000 = 0
      ∧ (Arkahub.RateLimiter.processQueue 1100 0 [2000, 2500, 5000]).head? =
          some 2000 :=
  (rateGate_spacing 1100 [2000, 2500, 5000]).2.1 2000 [2500, 5000] rfl (by decide)

/-- Byte extraction distributes over string concatenation. -/
theorem strBytes_append (a b : String) :
    Arkahub.strBytes (a ++ b) = Arkahub.strBytes a ++ Arkahub.strBytes b := by
  simp [Arkahub.strBytes, String.data_append]

/-- `leBytes` always yields the requested number of bytes. -/
theorem leBytes_length (k : Nat) : ∀ n, (Arkahub.leBytes k n).length = k := by
  induction k with
  | zero => intro n; rfl
  | succ k ih => intro n; simp [Arkahub.leBytes, ih]

/-- An MD5 digest is always 16 bytes. -/
theorem md5Bytes_length (m : List Nat) : (Arkahub.md5Bytes m).length = 16 := by
  unfold Arkahub.md5Bytes
  simp only [List.length_append, leBytes_length]

/-- Both hex characters of a byte are lowercase hex digits. -/
theorem hexByte_mem (b : Nat) (c : Char) (hc : c ∈ Arkahub.hexByte b) :
    c ∈ Arkahub.hexDigits := by
  have h16 : ∀ n < 16, Arkahub.hexDigit n ∈ Arkahub.hexDigits := by decide
  simp only [Arkahub.hexByte, List.mem_cons, List.not_mem_nil, or_false] at hc
  rcases hc with rfl | rfl
  · exact h16 _ (Nat.mod_lt _ (by omega))
  · exact h16 _ (Nat.mod_lt _ (by omega))

/-- The rendered digest has exactly 32 characters. -/
theorem md5Hex_length (m : List Nat) : (Arkahub.md5Hex m).length = 32 := by
  unfold Arkahub.md5Hex
  rw [show (String.mk ((Arkahub.md5Bytes m).flatMap Arkahub.hexByte)).length
      = ((Arkahub.md5Bytes m).flatMap Arkahub.hexByte).length from rfl]
  rw [List.length_flatMap]
  have h2 : ∀ b : Nat, (Arkahub.hexByte b).length = 2 := fun b => rfl
  simp [Function.comp_def, h2, md5Bytes_length, List.map_const', List.sum_replicate,
    smul_eq_mul]

/-- Every character of the rendered digest is a lowercase hex digit. -/
theorem md5Hex_mem (m : List Nat) (c : Char) (hc : c ∈ (Arkahub.md5Hex m).data) :
    c ∈ Arkahub.hexDigits := by
  unfold Arkahub.md5Hex at hc
  rw [show (String.mk ((Arkahub.md5Bytes m).flatMap Arkahub.hexByte)).data
      = (Arkahub.md5Bytes m).flatMap Arkahub.hexByte from rfl] at hc
  rw [List.mem_flatMap] at hc
  obtain ⟨b, _, hcb⟩ := hc
  exact hexByte_mem b c hcb

/-- C7: `generateSignature(p, t)` is the MD5 digest of the concatenation
`p || TOKEN || t` in that order (path only, secret, then decimal timestamp),
rendered as 32 lowercase hexadecimal characters; as a pure function it is
deterministic in `(p, t)`. -/
theorem generateSignature_spec (p : String) (t : Nat) :
    Arkahub.generateSignature p t =
        Arkahub.md5Hex (Arkahub.strBytes p ++ Arkahub.strBytes Arkahub.TOKEN
          ++ Arkahub.strBytes (toString t))
    ∧ (Arkahub.generateSignature p t).length = 32
    ∧ (∀ c ∈ (Arkahub.generateSignature p t).data, c ∈ Arkahub.hexDigits)
    ∧ (∀ (p2 : String) (t2 : Nat), p = p2 → t = t2 →
        Arkahub.generateSignature p t = Arkahub.generateSignature p2 t2) := by
  refine ⟨?_, md5Hex_length _, fun c hc => md5Hex_mem _ c hc, ?_⟩
  · unfold Arkahub.generateSignature
    rw [strBytes_append, strBytes_append]
  · intro p2 t2 hp ht
    rw [hp, ht]

/-- Witness for C7: determinism at the endpoint path and a concrete
timestamp. -/
theorem generateSignature_spec_witness :
    Arkahub.generateSignature "/device/real/query" 1700000000000 =
      Arkahub.generateSignature "/device/real/query" 1700000000000 :=
  (generateSignature_spec "/device/real/query" 1700000000000).2.2.2 _ _ rfl rfl

/-- The signature of the endpoint path at timestamp 1700000000000 matches the
digest computed by a reference MD5 implementation. -/
theorem generateSignature_value :
    Arkahub.generateSignature "/device/real/query" 1700000000000 =
      "192e6a35c45c5f24d5103c72c4ba77e9" := by
  decide
